import Mathlib

/-!
Shallow embedding of `src/report_generator.py` (Jupyter assignment PDF report
generator) and proofs about its rendering pipeline.

The PDF is modelled as an append-only trace of blocks plus the mutable
renderer state that FPDF keeps (current font, fill color, text color).
External collaborators (base64 decoding, PIL image introspection, FPDF image
placement, temp-file naming) are parameters, so theorems quantify over their
behaviour.  Python dictionary `.get` accesses become `Option.getD`.
-/

namespace ReportGen

/-- A notebook text field that may arrive as a single string or a list of
string fragments (`source`, stream `text`, `text/plain` payloads). -/
inductive StrOrList where
  | str : String → StrOrList
  | list : List String → StrOrList
deriving DecidableEq, Repr

/-- Python `''.join(x)`: on a string it returns the string itself (joining its
characters), on a list it concatenates the fragments with no separator.  The
source uses `''.join` for cell sources and stream text, and an explicit
`isinstance(..., list)` branch for `text/plain`; both have this semantics. -/
def joinFragments : StrOrList → String
  | .str s => s
  | .list l => String.join l

/-- An RGB color as passed to `set_fill_color` / `set_text_color`. -/
structure Color where
  r : Nat
  g : Nat
  b : Nat
deriving DecidableEq, Repr

/-- A font state as set by `set_font(family, style, size)`. -/
structure Font where
  family : String
  style : String
  size : Nat
deriving DecidableEq, Repr

/-- One visual unit appended to the document trace.

`text` records an FPDF `cell` (`multi := false`) or `multi_cell`
(`multi := true`) call together with the renderer state it was emitted under:
current font, the fill color when `fill=True` (else `none`), current text
color, alignment, and the rendered text.  `image` records a placed image:
x offset, rendered width and height, and the decoded byte content (FPDF
renders the file's bytes; when only `w` is given it scales the height by the
native aspect ratio, which equals the `img_height` the source computes).
`spacing` records an `ln(h)` vertical gap. -/
inductive Block where
  | text (font : Font) (height : ℚ) (fill : Option Color) (color : Color)
      (align : String) (multi : Bool) (txt : String)
  | image (x : ℚ) (w : ℚ) (h : ℚ) (content : List Nat)
  | spacing (h : ℚ)
deriving DecidableEq, Repr

/-- The FPDF document state the renderer reads and writes: page width `w` and
left margin `l_margin` (fixed FPDF defaults), the append-only block trace, and
the current font / fill color / text color. -/
structure Doc where
  w : ℚ
  l_margin : ℚ
  blocks : List Block
  font : Font
  fillColor : Color
  textColor : Color
deriving Repr

/-- `self.set_font(family, style, size)`. -/
def set_font (d : Doc) (family style : String) (size : Nat) : Doc :=
  { d with font := ⟨family, style, size⟩ }

/-- `self.set_fill_color(r, g, b)`. -/
def set_fill_color (d : Doc) (c : Color) : Doc :=
  { d with fillColor := c }

/-- `self.set_text_color(r, g, b)`. -/
def set_text_color (d : Doc) (c : Color) : Doc :=
  { d with textColor := c }

/-- `self.cell(0, h, txt, ln=True, align=..., fill=...)`: appends one text
line rendered under the current font, fill and text color. -/
def cellLine (d : Doc) (h : ℚ) (txt : String) (fill : Bool) (align : String) : Doc :=
  { d with blocks := d.blocks ++
      [Block.text d.font h (if fill then some d.fillColor else none) d.textColor align false txt] }

/-- `self.multi_cell(0, h, txt, fill=...)`: appends a wrapped text block
rendered under the current font, fill and text color. -/
def multi_cell (d : Doc) (h : ℚ) (txt : String) (fill : Bool) : Doc :=
  { d with blocks := d.blocks ++
      [Block.text d.font h (if fill then some d.fillColor else none) d.textColor "" true txt] }

/-- `self.ln(h)`. -/
def lnGap (d : Doc) (h : ℚ) : Doc :=
  { d with blocks := d.blocks ++ [Block.spacing h] }

/-- `NotebookReportPDF.__init__`: FPDF starts with black colors and no font;
the constructor emits the header block (title, student, assignment, date).
The timestamp string (`datetime.now().strftime('%Y-%m-%d %H:%M')`) is a
parameter. -/
def initDoc (w l_margin : ℚ) (student_name assignment_name timestamp : String) : Doc :=
  let d : Doc := ⟨w, l_margin, [], ⟨"", "", 0⟩, ⟨0, 0, 0⟩, ⟨0, 0, 0⟩⟩
  let d := set_font d "Arial" "B" 16
  let d := cellLine d 10 "Jupyter Notebook Assignment Report" false "C"
  let d := set_font d "Arial" "" 12
  let d := cellLine d 10 ("Student: " ++ student_name) false ""
  let d := cellLine d 10 ("Assignment: " ++ assignment_name) false ""
  let d := cellLine d 10 ("Date: " ++ timestamp) false ""
  lnGap d 10

/-- `NotebookReportPDF.add_cell_marker`. -/
def add_cell_marker (d : Doc) (cell_type : String) (cell_number : Nat) : Doc :=
  let d := set_font d "Arial" "B" 12
  let d := set_fill_color d ⟨220, 220, 220⟩
  let d := cellLine d 10 ("Cell " ++ toString cell_number ++ " (" ++ cell_type ++ ")") true ""
  lnGap d 5

/-- `NotebookReportPDF.add_code`. -/
def add_code (d : Doc) (code : String) : Doc :=
  let d := set_font d "Courier" "" 10
  let d := set_fill_color d ⟨240, 240, 240⟩
  let d := multi_cell d 5 code true
  lnGap d 5

/-- `NotebookReportPDF.add_markdown`. -/
def add_markdown (d : Doc) (txt : String) : Doc :=
  let d := set_font d "Arial" "B" 12
  let d := set_fill_color d ⟨245, 245, 250⟩
  let d := multi_cell d 5 txt true
  lnGap d 5

/-- `NotebookReportPDF.add_raw`: Python `if format_type:` is true exactly for
a nonempty string. -/
def add_raw (d : Doc) (txt : String) (format_type : String) : Doc :=
  let d := set_font d "Arial" "B" 10
  let d := set_fill_color d ⟨255, 245, 230⟩
  let d :=
    if format_type ≠ "" then
      let d := set_font d "Arial" "I" 10
      let d := cellLine d 5 ("Format: " ++ format_type) false ""
      set_font d "Courier" "" 10
    else d
  let d := multi_cell d 5 txt true
  lnGap d 5

/-- `NotebookReportPDF.add_output`. -/
def add_output (d : Doc) (output_text : String) : Doc :=
  let d := set_font d "Courier" "" 10
  let d := multi_cell d 5 output_text false
  lnGap d 5

/-- The external operations `add_image` relies on: `base64.b64decode` (may
raise on malformed input), `PIL.Image.open` on the decoded bytes (may raise on
unreadable data, else yields native pixel width and height), and FPDF
`self.image` placement (may raise; `none` means success). -/
structure ImageOps where
  b64decode : String → Except String (List Nat)
  openImage : List Nat → Except String (Nat × Nat)
  place : List Nat → Option String

/-- Full renderer state: the document plus the set of temporary files
currently existing on disk and a counter feeding the temp-name supply
(`tempfile.NamedTemporaryFile` picks a fresh name on each call). -/
structure RState where
  doc : Doc
  files : List String
  tempCounter : Nat

/-- The `except Exception` handler of `add_image`: red error line, text color
restored to black, trailing gap.  It does not remove the temporary file. -/
def imageError (d : Doc) (e : String) : Doc :=
  let d := set_text_color d ⟨255, 0, 0⟩
  let d := multi_cell d 5 ("Error displaying image: " ++ e) false
  let d := set_text_color d ⟨0, 0, 0⟩
  lnGap d 5

/-- `NotebookReportPDF.add_image`.  `NamedTemporaryFile(delete=False)` creates
the file on disk before decoding starts; `os.unlink` runs only at the end of
the `try` block, so any caught failure (decode, open, zero-width division,
placement) leaves the file in `files`.  When `pil_img.width` is `0` the
Python height expression raises `ZeroDivisionError`, caught by the same
handler.  FPDF is given only `w=img_width`, so the rendered height is
`height * img_width / width`, the same value as the source's `img_height`. -/
def add_image (ops : ImageOps) (nameOf : Nat → String) (st : RState) (img_data : String) : RState :=
  let temp_filename := nameOf st.tempCounter
  let st := { st with files := st.files ++ [temp_filename], tempCounter := st.tempCounter + 1 }
  match ops.b64decode img_data with
  | .error e => { st with doc := imageError st.doc e }
  | .ok image_data =>
    match ops.openImage image_data with
    | .error e => { st with doc := imageError st.doc e }
    | .ok (wpx, hpx) =>
      if wpx = 0 then { st with doc := imageError st.doc "division by zero" }
      else
        let page_width := st.doc.w - 2 * st.doc.l_margin
        let img_width := min page_width (wpx : ℚ)
        let img_height := (hpx : ℚ) * img_width / (wpx : ℚ)
        match ops.place image_data with
        | some e => { st with doc := imageError st.doc e }
        | none =>
          let x := st.doc.l_margin + (page_width - img_width) / 2
          let d := { st.doc with blocks := st.doc.blocks ++ [Block.image x img_width img_height image_data] }
          let d := lnGap d 5
          { st with doc := d, files := st.files.erase temp_filename }

/-- One notebook output record; each field mirrors a dictionary access in the
source (`output.get('output_type', '')`, `output.get('name', 'output')`,
`output.get('text', [])`, `data.get`-style presence of `'text/plain'` and
`'image/png'` in `output.get('data', {})`, `output.get('ename', 'Error')`,
`output.get('evalue', '')`, `output.get('traceback', [])`). -/
structure Output where
  output_type : Option String
  name : Option String
  text : Option StrOrList
  data_text_plain : Option StrOrList
  data_image_png : Option String
  ename : Option String
  evalue : Option String
  traceback : Option (List String)
deriving Repr

/-- One notebook cell (`cell.get('cell_type', 'unknown')`,
`cell.get('source', [])`, `cell.get('outputs', [])`,
`cell.get('metadata', {}).get('format', '')`). -/
structure Cell where
  cell_type : Option String
  source : Option StrOrList
  outputs : Option (List Output)
  metadata_format : Option StrOrList
deriving Repr

/-- A notebook: `nb.get('cells', [])`. -/
structure Notebook where
  cells : Option (List Cell)
deriving Repr

/-- The body of the `for output in outputs` loop of `process_notebook`. -/
def processOutput (ops : ImageOps) (nameOf : Nat → String) (st : RState) (output : Output) : RState :=
  let output_type := output.output_type.getD ""
  if output_type = "stream" then
    let txt := output.name.getD "output" ++ ": " ++ joinFragments (output.text.getD (.list []))
    { st with doc := add_output st.doc txt }
  else if output_type = "display_data" ∨ output_type = "execute_result" then
    let st :=
      match output.data_text_plain with
      | some t => { st with doc := add_output st.doc (joinFragments t) }
      | none => st
    match output.data_image_png with
    | some img => add_image ops nameOf st img
    | none => st
  else if output_type = "error" then
    let error_name := output.ename.getD "Error"
    let error_value := output.evalue.getD ""
    let traceback := String.intercalate "\n" (output.traceback.getD [])
    let d := set_text_color st.doc ⟨255, 0, 0⟩
    let d := add_output d (error_name ++ ": " ++ error_value ++ "\n" ++ traceback)
    let d := set_text_color d ⟨0, 0, 0⟩
    { st with doc := d }
  else st

/-- The body of the `for i, cell in enumerate(...)` loop of
`process_notebook` (`cell_number = i + 1`). -/
def processCell (ops : ImageOps) (nameOf : Nat → String) (st : RState)
    (cell_number : Nat) (cell : Cell) : RState :=
  let cell_type := cell.cell_type.getD "unknown"
  let st := { st with doc := add_cell_marker st.doc cell_type cell_number }
  if cell_type = "code" then
    let source := joinFragments (cell.source.getD (.list []))
    let st := { st with doc := add_code st.doc source }
    (cell.outputs.getD []).foldl (processOutput ops nameOf) st
  else if cell_type = "markdown" then
    { st with doc := add_markdown st.doc (joinFragments (cell.source.getD (.list []))) }
  else if cell_type = "raw" then
    let raw_text := joinFragments (cell.source.getD (.list []))
    let format_type :=
      match cell.metadata_format with
      | none => ""
      | some (.str s) => s
      | some (.list l) => String.intercalate ", " l
    { st with doc := add_raw st.doc raw_text format_type }
  else st

/-- The PDF-building part of `process_notebook`: construct the
`NotebookReportPDF` (header included) and process each cell in order with
1-based numbering. -/
def makePdf (ops : ImageOps) (nameOf : Nat → String) (w l_margin : ℚ)
    (nb : Notebook) (student_name assignment_name timestamp : String) : RState :=
  let pdf : RState := ⟨initDoc w l_margin student_name assignment_name timestamp, [], 0⟩
  (nb.cells.getD []).enum.foldl (fun st ic => processCell ops nameOf st (ic.1 + 1) ic.2) pdf

/-- One run of the external `ExecutePreprocessor.preprocess(nb, resources)`
call.  nbconvert executes cells in place on the very notebook object passed
to it: `mutated` is the state of that object when the call returns or raises
(on success the returned `executed_nb` is this same object; on a mid-run
failure the cells already run keep their fresh outputs in it, the rest are
untouched), and `raised` is `some e` when the call raises exception `e`. -/
structure PreprocessRun where
  mutated : Notebook
  raised : Option String

/-- `process_notebook` after loading, with `ep.preprocess(nb, resources)`
modelled by the run `run`.  On success (`raised = none`) the code assigns
`nb = executed_nb`, the mutated object.  When `preprocess` raises, the except
branch keeps the local name `nb` — but the object it denotes has already been
mutated in place by the partial execution, so rendering also proceeds on
`run.mutated`, not on the pre-execution content.  The printed diagnostics are
a side channel, not part of the document. -/
def process_notebook (ops : ImageOps) (nameOf : Nat → String) (w l_margin : ℚ)
    (nb : Notebook) (run : PreprocessRun)
    (student_name assignment_name timestamp : String) : RState :=
  let nbFinal :=
    match run.raised with
    | none => run.mutated
    | some _ => run.mutated
  makePdf ops nameOf w l_margin nbFinal student_name assignment_name timestamp

/-- Recognizer for section-marker blocks: `add_cell_marker` is the only
emitter of a non-wrapped cell with font Arial bold 12 and fill
`(220, 220, 220)`; no other emission in the program uses that fill color. -/
def isMarker (b : Block) : Bool :=
  match b with
  | .text f _ fl _ _ m _ =>
      !m && decide (fl = some ⟨220, 220, 220⟩) && decide (f = ⟨"Arial", "B", 12⟩)
  | _ => false

/-- The text carried by a text block (and `""` for non-text blocks). -/
def blockText : Block → String
  | .text _ _ _ _ _ _ t => t
  | _ => ""

/-- The label of the `i`-th section marker: `f"Cell {cell_number} ({cell_type})"`. -/
def markerText (cell_number : Nat) (cell_type : String) : String :=
  "Cell " ++ toString cell_number ++ " (" ++ cell_type ++ ")"

/-- The labels of the section-marker blocks of a document, in order. -/
def markerLabels (d : Doc) : List String :=
  (d.blocks.filter isMarker).map blockText

/-- Concrete image operations for witnesses: `"IMG"` is the one payload that
decodes (to bytes `[7, 8]`, a readable 2×3 image); everything else fails like
`base64.b64decode` does on malformed input. -/
def wOps : ImageOps where
  b64decode := fun s => if s = "IMG" then .ok [7, 8] else .error "Invalid base64-encoded string"
  openImage := fun b => if b = [7, 8] then .ok (2, 3) else .error "cannot identify image file"
  place := fun _ => none

/-- A concrete temp-name supply for witnesses. -/
def wName (n : Nat) : String := "tmp" ++ toString n

/-- A concrete document state for witnesses (A4 width 210, left margin 10). -/
def wDoc : Doc := ⟨210, 10, [], ⟨"Courier", "", 10⟩, ⟨240, 240, 240⟩, ⟨0, 0, 0⟩⟩

/-- A concrete renderer state for witnesses. -/
def wSt : RState := ⟨wDoc, [], 0⟩

/-- A concrete stream output for witnesses. -/
def wStream : Output := ⟨some "stream", some "stdout", some (.str "1\n"), none, none, none, none, none⟩

/-- A concrete `execute_result` output carrying both `text/plain` and a
decodable `image/png` payload, for witnesses. -/
def wExec : Output := ⟨some "execute_result", none, none, some (.str "42"), some "IMG", none, none, none⟩

/-- A concrete error output for witnesses. -/
def wErr : Output := ⟨some "error", none, none, none, none, some "ValueError", some "bad", some ["tb1", "tb2"]⟩

/-- A concrete code cell with outputs `[stream, execute_result, error]`, for
witnesses. -/
def wCodeCell : Cell := ⟨some "code", some (.str "print(1)"), some [wStream, wExec, wErr], none⟩

/-- An `execute_result` output carrying only an undecodable `image/png`
payload, for witnesses. -/
def wBadImg : Output := ⟨some "execute_result", none, none, none, some "??", none, none, none⟩

/-- A 2-cell notebook before execution: both code cells have empty output
lists. -/
def wNbOrig : Notebook :=
  ⟨some [⟨some "code", some (.str "print(1)"), some [], none⟩,
         ⟨some "code", some (.str "boom"), some [], none⟩]⟩

/-- The same notebook object after `preprocess` executed cell 1 (storing its
stream output in place) and raised on cell 2: partially executed. -/
def wNbPartial : Notebook :=
  ⟨some [⟨some "code", some (.str "print(1)"), some [wStream], none⟩,
         ⟨some "code", some (.str "boom"), some [], none⟩]⟩

/-- The raising `preprocess` run on `wNbOrig`: cell 1 executed, cell 2
raised. -/
def wRun : PreprocessRun := ⟨wNbPartial, some "CellExecutionError"⟩

/-! Document-level shadow of the renderer: the same operations with the
temp-file bookkeeping (and hence the temp-name supply) projected away.  These
are proof helpers; projection lemmas below relate them to the definitions
above, which are the ones embedded from the source. -/

/-- Document effect of `add_image`, without the temp-file bookkeeping. -/
def add_imageD (ops : ImageOps) (d : Doc) (img_data : String) : Doc :=
  match ops.b64decode img_data with
  | .error e => imageError d e
  | .ok image_data =>
    match ops.openImage image_data with
    | .error e => imageError d e
    | .ok (wpx, hpx) =>
      if wpx = 0 then imageError d "division by zero"
      else
        let page_width := d.w - 2 * d.l_margin
        let img_width := min page_width (wpx : ℚ)
        let img_height := (hpx : ℚ) * img_width / (wpx : ℚ)
        match ops.place image_data with
        | some e => imageError d e
        | none =>
          let x := d.l_margin + (page_width - img_width) / 2
          lnGap { d with blocks := d.blocks ++ [Block.image x img_width img_height image_data] } 5

/-- Document effect of `processOutput`. -/
def processOutputD (ops : ImageOps) (d : Doc) (output : Output) : Doc :=
  let output_type := output.output_type.getD ""
  if output_type = "stream" then
    add_output d (output.name.getD "output" ++ ": " ++ joinFragments (output.text.getD (.list [])))
  else if output_type = "display_data" ∨ output_type = "execute_result" then
    let d :=
      match output.data_text_plain with
      | some t => add_output d (joinFragments t)
      | none => d
    match output.data_image_png with
    | some img => add_imageD ops d img
    | none => d
  else if output_type = "error" then
    let error_name := output.ename.getD "Error"
    let error_value := output.evalue.getD ""
    let traceback := String.intercalate "\n" (output.traceback.getD [])
    let d := set_text_color d ⟨255, 0, 0⟩
    let d := add_output d (error_name ++ ": " ++ error_value ++ "\n" ++ traceback)
    set_text_color d ⟨0, 0, 0⟩
  else d

/-- Document effect of `processCell`. -/
def processCellD (ops : ImageOps) (d : Doc) (cell_number : Nat) (cell : Cell) : Doc :=
  let cell_type := cell.cell_type.getD "unknown"
  let d := add_cell_marker d cell_type cell_number
  if cell_type = "code" then
    let d := add_code d (joinFragments (cell.source.getD (.list [])))
    (cell.outputs.getD []).foldl (processOutputD ops) d
  else if cell_type = "markdown" then
    add_markdown d (joinFragments (cell.source.getD (.list [])))
  else if cell_type = "raw" then
    let raw_text := joinFragments (cell.source.getD (.list []))
    let format_type :=
      match cell.metadata_format with
      | none => ""
      | some (.str s) => s
      | some (.list l) => String.intercalate ", " l
    add_raw d raw_text format_type
  else d

/-- Document effect of `makePdf`. -/
def makePdfD (ops : ImageOps) (w l_margin : ℚ) (nb : Notebook)
    (student_name assignment_name timestamp : String) : Doc :=
  (nb.cells.getD []).enum.foldl (fun d ic => processCellD ops d (ic.1 + 1) ic.2)
    (initDoc w l_margin student_name assignment_name timestamp)

/-- The document produced by `add_image` depends only on the incoming
document, not on the temp-file bookkeeping or the temp-name supply. -/
theorem add_image_doc (ops : ImageOps) (nameOf : Nat → String) (st : RState) (p : String) :
    (add_image ops nameOf st p).doc = add_imageD ops st.doc p := by
  rcases hb : ops.b64decode p with e | bytes
  · simp [add_image, add_imageD, hb]
  · rcases ho : ops.openImage bytes with e | ⟨wpx, hpx⟩
    · simp [add_image, add_imageD, hb, ho]
    · by_cases hw : wpx = 0
      · simp [add_image, add_imageD, hb, ho, hw]
      · rcases hp : ops.place bytes with _ | e
        · simp [add_image, add_imageD, hb, ho, hw, hp]
        · simp [add_image, add_imageD, hb, ho, hw, hp]

/-- The document produced by `processOutput` depends only on the incoming
document. -/
theorem processOutput_doc (ops : ImageOps) (nameOf : Nat → String) (st : RState) (o : Output) :
    (processOutput ops nameOf st o).doc = processOutputD ops st.doc o := by
  by_cases h1 : o.output_type.getD "" = "stream"
  · simp [processOutput, processOutputD, h1]
  · by_cases h2 : o.output_type.getD "" = "display_data" ∨ o.output_type.getD "" = "execute_result"
    · rcases htp : o.data_text_plain with _ | tp <;> rcases hip : o.data_image_png with _ | img <;>
        simp [processOutput, processOutputD, h1, h2, htp, hip, add_image_doc]
    · by_cases h3 : o.output_type.getD "" = "error"
      · simp [processOutput, processOutputD, h1, h2, h3]
      · simp [processOutput, processOutputD, h1, h2, h3]

/-- The document produced by the output loop depends only on the incoming
document. -/
theorem foldl_processOutput_doc (ops : ImageOps) (nameOf : Nat → String) :
    ∀ (outs : List Output) (st : RState),
      (outs.foldl (processOutput ops nameOf) st).doc = outs.foldl (processOutputD ops) st.doc := by
  intro outs
  induction outs with
  | nil => intro st; rfl
  | cons o rest ih =>
    intro st
    have h := processOutput_doc ops nameOf st o
    simp only [List.foldl_cons, ih, h]

/-- The document produced by `processCell` depends only on the incoming
document. -/
theorem processCell_doc (ops : ImageOps) (nameOf : Nat → String) (st : RState)
    (n : Nat) (c : Cell) :
    (processCell ops nameOf st n c).doc = processCellD ops st.doc n c := by
  by_cases h1 : c.cell_type.getD "unknown" = "code"
  · simp [processCell, processCellD, h1, foldl_processOutput_doc]
  · by_cases h2 : c.cell_type.getD "unknown" = "markdown"
    · simp [processCell, processCellD, h1, h2]
    · by_cases h3 : c.cell_type.getD "unknown" = "raw"
      · simp [processCell, processCellD, h1, h2, h3]
      · simp [processCell, processCellD, h1, h2, h3]

/-- The document produced by the cell loop depends only on the incoming
document. -/
theorem foldl_processCell_doc (ops : ImageOps) (nameOf : Nat → String) :
    ∀ (l : List (Nat × Cell)) (st : RState),
      (l.foldl (fun st ic => processCell ops nameOf st (ic.1 + 1) ic.2) st).doc
        = l.foldl (fun d ic => processCellD ops d (ic.1 + 1) ic.2) st.doc := by
  intro l
  induction l with
  | nil => intro st; rfl
  | cons ic rest ih =>
    intro st
    simp only [List.foldl_cons, ih, processCell_doc]

/-- The document produced by `makePdf` depends only on the notebook, the page
geometry, the header strings and the external image operations — not on the
temp-name supply. -/
theorem makePdf_doc (ops : ImageOps) (nameOf : Nat → String) (w lm : ℚ) (nb : Notebook)
    (s a t : String) :
    (makePdf ops nameOf w lm nb s a t).doc = makePdfD ops w lm nb s a t := by
  unfold makePdf makePdfD
  exact foldl_processCell_doc ops nameOf _ _

theorem markerLabels_initDoc (w lm : ℚ) (s a t : String) :
    markerLabels (initDoc w lm s a t) = [] := rfl

theorem markerLabels_add_output (d : Doc) (t : String) :
    markerLabels (add_output d t) = markerLabels d := by
  simp [markerLabels, add_output, multi_cell, set_font, lnGap, List.filter_append, isMarker]

theorem markerLabels_imageError (d : Doc) (e : String) :
    markerLabels (imageError d e) = markerLabels d := by
  simp [markerLabels, imageError, multi_cell, set_text_color, lnGap, List.filter_append, isMarker]

theorem markerLabels_add_code (d : Doc) (c : String) :
    markerLabels (add_code d c) = markerLabels d := by
  simp [markerLabels, add_code, multi_cell, set_font, set_fill_color, lnGap,
    List.filter_append, isMarker]

theorem markerLabels_add_markdown (d : Doc) (t : String) :
    markerLabels (add_markdown d t) = markerLabels d := by
  simp [markerLabels, add_markdown, multi_cell, set_font, set_fill_color, lnGap,
    List.filter_append, isMarker]

theorem markerLabels_add_raw (d : Doc) (t ft : String) :
    markerLabels (add_raw d t ft) = markerLabels d := by
  by_cases h : ft ≠ "" <;>
    simp [markerLabels, add_raw, multi_cell, cellLine, set_font, set_fill_color, lnGap, h,
      List.filter_append, isMarker]

theorem markerLabels_add_cell_marker (d : Doc) (ty : String) (n : Nat) :
    markerLabels (add_cell_marker d ty n) = markerLabels d ++ [markerText n ty] := by
  simp [markerLabels, add_cell_marker, cellLine, set_font, set_fill_color, lnGap,
    List.filter_append, isMarker, blockText, markerText]

theorem markerLabels_add_imageD (ops : ImageOps) (d : Doc) (p : String) :
    markerLabels (add_imageD ops d p) = markerLabels d := by
  rcases hb : ops.b64decode p with e | bytes
  · simp [add_imageD, hb, markerLabels_imageError]
  · rcases ho : ops.openImage bytes with e | ⟨wpx, hpx⟩
    · simp [add_imageD, hb, ho, markerLabels_imageError]
    · by_cases hw : wpx = 0
      · simp [add_imageD, hb, ho, hw, markerLabels_imageError]
      · rcases hp : ops.place bytes with _ | e
        · simp [add_imageD, hb, ho, hw, hp, markerLabels, lnGap, List.filter_append, isMarker]
        · simp [add_imageD, hb, ho, hw, hp, markerLabels_imageError]

theorem markerLabels_processOutputD (ops : ImageOps) (d : Doc) (o : Output) :
    markerLabels (processOutputD ops d o) = markerLabels d := by
  by_cases h1 : o.output_type.getD "" = "stream"
  · simp [processOutputD, h1, markerLabels_add_output]
  · by_cases h2 : o.output_type.getD "" = "display_data" ∨ o.output_type.getD "" = "execute_result"
    · rcases htp : o.data_text_plain with _ | tp <;> rcases hip : o.data_image_png with _ | img <;>
        simp [processOutputD, h1, h2, htp, hip, markerLabels_add_output, markerLabels_add_imageD]
    · by_cases h3 : o.output_type.getD "" = "error"
      · simp [processOutputD, h1, h2, h3, markerLabels, add_output, multi_cell, set_font,
          set_text_color, lnGap, List.filter_append, isMarker]
      · simp [processOutputD, h1, h2, h3]

theorem markerLabels_foldl_processOutputD (ops : ImageOps) :
    ∀ (outs : List Output) (d : Doc),
      markerLabels (outs.foldl (processOutputD ops) d) = markerLabels d := by
  intro outs
  induction outs with
  | nil => intro d; rfl
  | cons o rest ih =>
    intro d
    simp only [List.foldl_cons, ih, markerLabels_processOutputD]

/-- Each cell contributes exactly one section-marker block, labeled with its
1-based number and its (defaulted) type. -/
theorem markerLabels_processCellD (ops : ImageOps) (d : Doc) (n : Nat) (c : Cell) :
    markerLabels (processCellD ops d n c)
      = markerLabels d ++ [markerText n (c.cell_type.getD "unknown")] := by
  by_cases h1 : c.cell_type.getD "unknown" = "code"
  · simp [processCellD, h1, markerLabels_foldl_processOutputD, markerLabels_add_code,
      markerLabels_add_cell_marker]
  · by_cases h2 : c.cell_type.getD "unknown" = "markdown"
    · simp [processCellD, h1, h2, markerLabels_add_markdown, markerLabels_add_cell_marker]
    · by_cases h3 : c.cell_type.getD "unknown" = "raw"
      · simp [processCellD, h1, h2, h3, markerLabels_add_raw, markerLabels_add_cell_marker]
      · simp [processCellD, h1, h2, h3, markerLabels_add_cell_marker]

theorem markerLabels_foldl_processCellD (ops : ImageOps) :
    ∀ (cells : List Cell) (k : Nat) (d : Doc),
      markerLabels ((List.enumFrom k cells).foldl (fun d ic => processCellD ops d (ic.1 + 1) ic.2) d)
        = markerLabels d
          ++ (List.enumFrom k cells).map (fun ic => markerText (ic.1 + 1) (ic.2.cell_type.getD "unknown")) := by
  intro cells
  induction cells with
  | nil => intro k d; simp [List.enumFrom]
  | cons c rest ih =>
    intro k d
    simp only [List.enumFrom, List.foldl_cons, List.map_cons, ih, markerLabels_processCellD]
    simp [List.append_assoc]

/-- Claim C2 (refuted — code bug): on a mid-run execution failure the
renderer does not receive the original, unexecuted notebook.
`ExecutePreprocessor.preprocess` mutates the passed notebook in place, so the
except branch renders the partially-executed object: for every raising run
the document equals `makePdf` of the post-mutation notebook, and for a
concrete run that executed cell 1 (storing its output) and raised on cell 2
the document differs from that of the original notebook — against the code's
own comment that it continues "with the original notebook". -/
theorem partial_execution_rendered (ops : ImageOps) (nameOf : Nat → String)
    (w lm : ℚ) (nb : Notebook) (run : PreprocessRun) (e s a t : String) :
    (run.raised = some e →
      process_notebook ops nameOf w lm nb run s a t
        = makePdf ops nameOf w lm run.mutated s a t)
    ∧ (process_notebook wOps wName 210 10 wNbOrig wRun "s" "a" "t").doc.blocks.length
      ≠ (makePdf wOps wName 210 10 wNbOrig "s" "a" "t").doc.blocks.length := by
  constructor
  · intro hr
    simp [process_notebook, hr]
  · decide

/-- Claim C2 witness: the concrete raising run `wRun` makes the code render
the mutated, partially-executed notebook `wNbPartial`. -/
theorem partial_execution_rendered_witness :
    wRun.raised = some "CellExecutionError"
    ∧ process_notebook wOps wName 210 10 wNbOrig wRun "s" "a" "t"
      = makePdf wOps wName 210 10 wNbPartial "s" "a" "t" := by
  have h := (partial_execution_rendered wOps wName 210 10 wNbOrig wRun
      "CellExecutionError" "s" "a" "t").1 rfl
  exact ⟨rfl, h⟩

/-- Claim C4: for a notebook with N cells the rendered document contains
exactly N section-marker blocks, the i-th labeled `Cell i (cell_type)` with
1-based index equal to the cell's position and its declared type (defaulting
to `unknown`), emitted for every cell type. -/
theorem section_markers_exact (ops : ImageOps) (nameOf : Nat → String) (w lm : ℚ)
    (nb : Notebook) (s a t : String) :
    markerLabels (makePdf ops nameOf w lm nb s a t).doc
      = (nb.cells.getD []).enum.map (fun ic => markerText (ic.1 + 1) (ic.2.cell_type.getD "unknown"))
    ∧ ((makePdf ops nameOf w lm nb s a t).doc.blocks.filter isMarker).length
      = (nb.cells.getD []).length := by
  have h1 : markerLabels (makePdf ops nameOf w lm nb s a t).doc
      = (nb.cells.getD []).enum.map (fun ic => markerText (ic.1 + 1) (ic.2.cell_type.getD "unknown")) := by
    rw [makePdf_doc]
    unfold makePdfD
    rw [show (nb.cells.getD []).enum = List.enumFrom 0 (nb.cells.getD []) from rfl]
    rw [markerLabels_foldl_processCellD, markerLabels_initDoc]
    simp
  refine ⟨h1, ?_⟩
  have h2 := congrArg List.length h1
  simpa [markerLabels] using h2

/-- Claim C9: rendering is deterministic — with the same notebook, execution
result, header strings and timestamp, the produced document does not depend
on the temp-file name supply (the only run-to-run varying input in the
renderer), so two runs produce identical documents. -/
theorem rendering_deterministic (ops : ImageOps) (n1 n2 : Nat → String) (w lm : ℚ)
    (nb : Notebook) (run : PreprocessRun) (s a t : String) :
    (process_notebook ops n1 w lm nb run s a t).doc
      = (process_notebook ops n2 w lm nb run s a t).doc := by
  rcases run with ⟨m, r⟩
  cases r <;> simp [process_notebook, makePdf_doc]

/-- Claim C8: structurally incomplete cells render without error: a missing
`cell_type` is treated as `unknown` (only the section marker is emitted), a
missing `source` renders as the empty string, and missing `outputs` as the
empty output sequence. -/
theorem missing_fields_permissive (ops : ImageOps) (nameOf : Nat → String)
    (st : RState) (n : Nat) :
    (∀ src outs md, processCell ops nameOf st n ⟨none, src, outs, md⟩
        = { st with doc := add_cell_marker st.doc "unknown" n })
    ∧ (∀ ct outs md, processCell ops nameOf st n ⟨ct, none, outs, md⟩
        = processCell ops nameOf st n ⟨ct, some (.str ""), outs, md⟩)
    ∧ (∀ ct src md, processCell ops nameOf st n ⟨ct, src, none, md⟩
        = processCell ops nameOf st n ⟨ct, src, some [], md⟩) := by
  refine ⟨?_, ?_, ?_⟩
  · intro src outs md
    simp [processCell]
  · intro ct outs md
    simp [processCell, joinFragments, String.join]
  · intro ct src md
    simp [processCell]

/-- Claim C10: a rendered error output defaults its missing fields — `ename`
to `"Error"`, `evalue` to `""`, `traceback` to no lines — so an error output
with no fields at all still emits an error block with text `"Error: \n"`. -/
theorem error_output_defaults (ops : ImageOps) (nameOf : Nat → String) (st : RState) :
    (∀ nm tx tp ip en ev tb,
      (processOutput ops nameOf st ⟨some "error", nm, tx, tp, ip, en, ev, tb⟩).doc.blocks
        = st.doc.blocks ++
          [Block.text ⟨"Courier", "", 10⟩ 5 none ⟨255, 0, 0⟩ "" true
              (en.getD "Error" ++ ": " ++ ev.getD "" ++ "\n"
                ++ String.intercalate "\n" (tb.getD [])),
           Block.spacing 5])
    ∧ (processOutput ops nameOf st ⟨some "error", none, none, none, none, none, none, none⟩).doc.blocks
        = st.doc.blocks ++
          [Block.text ⟨"Courier", "", 10⟩ 5 none ⟨255, 0, 0⟩ "" true "Error: \n",
           Block.spacing 5] := by
  constructor
  · intro nm tx tp ip en ev tb
    simp [processOutput, add_output, multi_cell, set_font, set_text_color, lnGap]
  · have h : ("Error" ++ ": " ++ "" ++ "\n" ++ "" : String) = "Error: \n" := rfl
    simp [processOutput, add_output, multi_cell, set_font, set_text_color, lnGap,
      String.intercalate, h]

/-- Claim C6: a text field given as a list of fragments renders identically
to the single string equal to their order-preserving concatenation — for
code, markdown and raw cell sources, stream text, and `text/plain` payloads
(in both `display_data` and `execute_result` outputs); in particular
`["a", "b", "c"]` joins to `"abc"`. -/
theorem fragment_concatenation (ops : ImageOps) (nameOf : Nat → String)
    (st : RState) (n : Nat) :
    (∀ l outs md, processCell ops nameOf st n ⟨some "code", some (.list l), outs, md⟩
        = processCell ops nameOf st n ⟨some "code", some (.str (String.join l)), outs, md⟩)
    ∧ (∀ l outs md, processCell ops nameOf st n ⟨some "markdown", some (.list l), outs, md⟩
        = processCell ops nameOf st n ⟨some "markdown", some (.str (String.join l)), outs, md⟩)
    ∧ (∀ l outs md, processCell ops nameOf st n ⟨some "raw", some (.list l), outs, md⟩
        = processCell ops nameOf st n ⟨some "raw", some (.str (String.join l)), outs, md⟩)
    ∧ (∀ nm l tp ip en ev tb,
        processOutput ops nameOf st ⟨some "stream", nm, some (.list l), tp, ip, en, ev, tb⟩
        = processOutput ops nameOf st ⟨some "stream", nm, some (.str (String.join l)), tp, ip, en, ev, tb⟩)
    ∧ (∀ l nm tx ip en ev tb,
        processOutput ops nameOf st ⟨some "display_data", nm, tx, some (.list l), ip, en, ev, tb⟩
        = processOutput ops nameOf st ⟨some "display_data", nm, tx, some (.str (String.join l)), ip, en, ev, tb⟩)
    ∧ (∀ l nm tx ip en ev tb,
        processOutput ops nameOf st ⟨some "execute_result", nm, tx, some (.list l), ip, en, ev, tb⟩
        = processOutput ops nameOf st ⟨some "execute_result", nm, tx, some (.str (String.join l)), ip, en, ev, tb⟩)
    ∧ joinFragments (.list ["a", "b", "c"]) = joinFragments (.str "abc") := by
  refine ⟨?_, ?_, ?_, ?_, ?_, ?_, rfl⟩ <;> intros <;>
    simp [processCell, processOutput, joinFragments]

/-- Claim C3: an `image/png` payload that fails to decode (malformed base64)
or whose bytes are unreadable does not abort rendering: `add_image` emits
exactly one text block `"Error displaying image: {reason}"` (red at emission
time) plus its trailing gap, restores the text color to default black, and
subsequent outputs still render (shown for a following stream output, which
renders in default black). -/
theorem image_decode_failure_absorbed (ops : ImageOps) (nameOf : Nat → String)
    (st : RState) (p e : String) :
    (ops.b64decode p = .error e →
      (add_image ops nameOf st p).doc.blocks = st.doc.blocks ++
        [Block.text st.doc.font 5 none ⟨255, 0, 0⟩ "" true ("Error displaying image: " ++ e),
         Block.spacing 5]
      ∧ (add_image ops nameOf st p).doc.textColor = ⟨0, 0, 0⟩)
    ∧ (∀ bytes, ops.b64decode p = .ok bytes → ops.openImage bytes = .error e →
      (add_image ops nameOf st p).doc.blocks = st.doc.blocks ++
        [Block.text st.doc.font 5 none ⟨255, 0, 0⟩ "" true ("Error displaying image: " ++ e),
         Block.spacing 5]
      ∧ (add_image ops nameOf st p).doc.textColor = ⟨0, 0, 0⟩)
    ∧ (ops.b64decode p = .error e → ∀ (nm : Option String) (tx : Option StrOrList),
      (([⟨some "execute_result", none, none, none, some p, none, none, none⟩,
         ⟨some "stream", nm, tx, none, none, none, none, none⟩] : List Output).foldl
            (processOutput ops nameOf) st).doc.blocks
        = st.doc.blocks ++
          [Block.text st.doc.font 5 none ⟨255, 0, 0⟩ "" true ("Error displaying image: " ++ e),
           Block.spacing 5,
           Block.text ⟨"Courier", "", 10⟩ 5 none ⟨0, 0, 0⟩ "" true
             (nm.getD "output" ++ ": " ++ joinFragments (tx.getD (.list []))),
           Block.spacing 5]) := by
  refine ⟨?_, ?_, ?_⟩
  · intro hd
    constructor <;> simp [add_image, imageError, hd, multi_cell, set_text_color, lnGap]
  · intro bytes hd ho
    constructor <;> simp [add_image, imageError, hd, ho, multi_cell, set_text_color, lnGap]
  · intro hd nm tx
    simp [processOutput, add_image, imageError, hd, add_output, multi_cell, set_font,
      set_text_color, lnGap]

/-- Claim C3 witness: concrete invalid payload `"??"` under the concrete
decoder. -/
theorem image_decode_failure_absorbed_witness :
    wOps.b64decode "??" = Except.error "Invalid base64-encoded string"
    ∧ (add_image wOps wName wSt "??").doc.blocks = wSt.doc.blocks ++
        [Block.text wSt.doc.font 5 none ⟨255, 0, 0⟩ "" true
           "Error displaying image: Invalid base64-encoded string",
         Block.spacing 5]
    ∧ (add_image wOps wName wSt "??").doc.textColor = ⟨0, 0, 0⟩ := by
  have h := (image_decode_failure_absorbed wOps wName wSt "??"
      "Invalid base64-encoded string").1 rfl
  exact ⟨rfl, h.1.trans (by decide), h.2⟩

/-- Claim C7: a successfully decoded image with native size W×H is rendered
with target width `min(usable width, W)`, target height `H * (target width / W)`
(aspect ratio preserved, never upscaled beyond native width), horizontally
centered at `left margin + (usable width - target width) / 2`. -/
theorem image_layout (ops : ImageOps) (nameOf : Nat → String) (st : RState)
    (p : String) (bytes : List Nat) (wpx hpx : Nat)
    (hd : ops.b64decode p = .ok bytes) (ho : ops.openImage bytes = .ok (wpx, hpx))
    (hp : ops.place bytes = none) (hw : 0 < wpx) :
    (add_image ops nameOf st p).doc.blocks = st.doc.blocks ++
      [Block.image
         (st.doc.l_margin
           + ((st.doc.w - 2 * st.doc.l_margin) - min (st.doc.w - 2 * st.doc.l_margin) (wpx : ℚ)) / 2)
         (min (st.doc.w - 2 * st.doc.l_margin) (wpx : ℚ))
         ((hpx : ℚ) * min (st.doc.w - 2 * st.doc.l_margin) (wpx : ℚ) / (wpx : ℚ))
         bytes,
       Block.spacing 5]
    ∧ min (st.doc.w - 2 * st.doc.l_margin) (wpx : ℚ) ≤ (wpx : ℚ)
    ∧ (hpx : ℚ) * min (st.doc.w - 2 * st.doc.l_margin) (wpx : ℚ) / (wpx : ℚ)
      = (hpx : ℚ) * (min (st.doc.w - 2 * st.doc.l_margin) (wpx : ℚ) / (wpx : ℚ)) := by
  have hw0 : wpx ≠ 0 := Nat.pos_iff_ne_zero.mp hw
  refine ⟨?_, min_le_right _ _, mul_div_assoc _ _ _⟩
  simp [add_image, hd, ho, hp, hw0, lnGap]

/-- Claim C7 witness: a 2×3 image on a page of width 210 with margin 10:
target width `min(190, 2) = 2`, height `3 * 2 / 2 = 3`, left offset
`10 + (190 - 2) / 2 = 104`. -/
theorem image_layout_witness :
    wOps.b64decode "IMG" = Except.ok [7, 8] ∧ 0 < 2
    ∧ (add_image wOps wName wSt "IMG").doc.blocks = wSt.doc.blocks ++
        [Block.image 104 2 3 [7, 8], Block.spacing 5] := by
  have h := (image_layout wOps wName wSt "IMG" [7, 8] 2 3 rfl rfl rfl (by decide)).1
  refine ⟨rfl, by decide, h.trans ?_⟩
  norm_num [wSt, wDoc, min_def]

/-- Claim C5: a code cell with outputs `[stream, execute_result(text+image),
error]` emits, in exact order: section marker, code block, output block
(stream text), output block (text/plain), image block, error block (each with
its trailing gap); the text color is restored to default black after the
error block; outputs with an unrecognized `output_type` produce no block at
all. -/
theorem output_ordering (ops : ImageOps) (nameOf : Nat → String) (st : RState) (n : Nat)
    (src : StrOrList) (md : Option StrOrList) (nm : Option String) (tx : Option StrOrList)
    (tp : StrOrList) (p : String) (bytes : List Nat) (wpx hpx : Nat)
    (en ev : Option String) (tb : Option (List String))
    (hd : ops.b64decode p = .ok bytes) (ho : ops.openImage bytes = .ok (wpx, hpx))
    (hp : ops.place bytes = none) (hw : 0 < wpx) :
    (processCell ops nameOf st n
        ⟨some "code", some src,
         some [⟨some "stream", nm, tx, none, none, none, none, none⟩,
               ⟨some "execute_result", none, none, some tp, some p, none, none, none⟩,
               ⟨some "error", none, none, none, none, en, ev, tb⟩], md⟩).doc.blocks
      = st.doc.blocks ++
        [Block.text ⟨"Arial", "B", 12⟩ 10 (some ⟨220, 220, 220⟩) st.doc.textColor "" false
           (markerText n "code"),
         Block.spacing 5,
         Block.text ⟨"Courier", "", 10⟩ 5 (some ⟨240, 240, 240⟩) st.doc.textColor "" true
           (joinFragments src),
         Block.spacing 5,
         Block.text ⟨"Courier", "", 10⟩ 5 none st.doc.textColor "" true
           (nm.getD "output" ++ ": " ++ joinFragments (tx.getD (.list []))),
         Block.spacing 5,
         Block.text ⟨"Courier", "", 10⟩ 5 none st.doc.textColor "" true (joinFragments tp),
         Block.spacing 5,
         Block.image
           (st.doc.l_margin
             + ((st.doc.w - 2 * st.doc.l_margin) - min (st.doc.w - 2 * st.doc.l_margin) (wpx : ℚ)) / 2)
           (min (st.doc.w - 2 * st.doc.l_margin) (wpx : ℚ))
           ((hpx : ℚ) * min (st.doc.w - 2 * st.doc.l_margin) (wpx : ℚ) / (wpx : ℚ)) bytes,
         Block.spacing 5,
         Block.text ⟨"Courier", "", 10⟩ 5 none ⟨255, 0, 0⟩ "" true
           (en.getD "Error" ++ ": " ++ ev.getD "" ++ "\n" ++ String.intercalate "\n" (tb.getD [])),
         Block.spacing 5]
    ∧ (processCell ops nameOf st n
        ⟨some "code", some src,
         some [⟨some "stream", nm, tx, none, none, none, none, none⟩,
               ⟨some "execute_result", none, none, some tp, some p, none, none, none⟩,
               ⟨some "error", none, none, none, none, en, ev, tb⟩], md⟩).doc.textColor = ⟨0, 0, 0⟩
    ∧ (∀ (st' : RState) (o : Output),
        o.output_type.getD "" ∉ (["stream", "display_data", "execute_result", "error"] : List String) →
        processOutput ops nameOf st' o = st') := by
  have hw0 : wpx ≠ 0 := Nat.pos_iff_ne_zero.mp hw
  refine ⟨?_, ?_, ?_⟩
  · simp [processCell, processOutput, add_cell_marker, add_code, add_output, add_image,
      cellLine, multi_cell, set_font, set_fill_color, set_text_color, lnGap, markerText,
      hd, ho, hp, hw0]
  · simp [processCell, processOutput, add_cell_marker, add_code, add_output, add_image,
      cellLine, multi_cell, set_font, set_fill_color, set_text_color, lnGap,
      hd, ho, hp, hw0]
  · intro st' o h
    simp only [List.mem_cons, List.not_mem_nil, or_false, not_or] at h
    obtain ⟨h1, h2, h3, h4⟩ := h
    simp [processOutput, h1, h2, h3, h4]

/-- Claim C5 witness: the concrete cell `wCodeCell` under the concrete
decoder renders exactly the expected eleven blocks, ending with the error
block, and leaves the text color at default black. -/
theorem output_ordering_witness :
    0 < 2
    ∧ (processCell wOps wName wSt 1 wCodeCell).doc.blocks = wSt.doc.blocks ++
        [Block.text ⟨"Arial", "B", 12⟩ 10 (some ⟨220, 220, 220⟩) ⟨0, 0, 0⟩ "" false "Cell 1 (code)",
         Block.spacing 5,
         Block.text ⟨"Courier", "", 10⟩ 5 (some ⟨240, 240, 240⟩) ⟨0, 0, 0⟩ "" true "print(1)",
         Block.spacing 5,
         Block.text ⟨"Courier", "", 10⟩ 5 none ⟨0, 0, 0⟩ "" true "stdout: 1\n",
         Block.spacing 5,
         Block.text ⟨"Courier", "", 10⟩ 5 none ⟨0, 0, 0⟩ "" true "42",
         Block.spacing 5,
         Block.image 104 2 3 [7, 8],
         Block.spacing 5,
         Block.text ⟨"Courier", "", 10⟩ 5 none ⟨255, 0, 0⟩ "" true "ValueError: bad\ntb1\ntb2",
         Block.spacing 5]
    ∧ (processCell wOps wName wSt 1 wCodeCell).doc.textColor = ⟨0, 0, 0⟩ := by
  have h := output_ordering wOps wName wSt 1 (.str "print(1)") none (some "stdout")
      (some (.str "1\n")) (.str "42") "IMG" [7, 8] 2 3 (some "ValueError")
      (some "bad") (some ["tb1", "tb2"]) rfl rfl rfl (by decide)
  refine ⟨by decide, h.1.trans ?_, h.2.1⟩
  norm_num [wSt, wDoc, min_def, markerText, joinFragments]
  exact ⟨rfl, rfl, rfl⟩

/-- Claim C1 (refuted — code bug): the temporary decode file is deleted only
on the success path.  `os.unlink` sits at the end of the `try` block, so on
every failure path (base64 decode failure, unreadable image, zero-width
division, placement failure) the file created by
`NamedTemporaryFile(delete=False)` is still on disk when `add_image`
returns; on the success path it is removed. -/
theorem temp_file_released_only_on_success (ops : ImageOps) (nameOf : Nat → String)
    (st : RState) (p : String) :
    (∀ e, ops.b64decode p = .error e →
      (add_image ops nameOf st p).files = st.files ++ [nameOf st.tempCounter])
    ∧ (∀ bytes e, ops.b64decode p = .ok bytes → ops.openImage bytes = .error e →
      (add_image ops nameOf st p).files = st.files ++ [nameOf st.tempCounter])
    ∧ (∀ bytes wpx hpx e, ops.b64decode p = .ok bytes → ops.openImage bytes = .ok (wpx, hpx) →
        wpx ≠ 0 → ops.place bytes = some e →
      (add_image ops nameOf st p).files = st.files ++ [nameOf st.tempCounter])
    ∧ (∀ bytes wpx hpx, ops.b64decode p = .ok bytes → ops.openImage bytes = .ok (wpx, hpx) →
        wpx ≠ 0 → ops.place bytes = none → nameOf st.tempCounter ∉ st.files →
      (add_image ops nameOf st p).files = st.files) := by
  refine ⟨?_, ?_, ?_, ?_⟩
  · intro e hd
    simp [add_image, hd]
  · intro bytes e hd ho
    simp [add_image, hd, ho]
  · intro bytes wpx hpx e hd ho hw hp
    simp [add_image, hd, ho, hw, hp]
  · intro bytes wpx hpx hd ho hw hp hmem
    simp [add_image, hd, ho, hw, hp, List.erase_append_right _ hmem]

/-- Claim C1 witness: for the concrete invalid payload `"??"` the temp file
`"tmp0"` is still present after `add_image` returns; for the concrete valid
payload `"IMG"` it is removed. -/
theorem temp_file_released_only_on_success_witness :
    wOps.b64decode "??" = Except.error "Invalid base64-encoded string"
    ∧ (add_image wOps wName wSt "??").files = ["tmp0"]
    ∧ (add_image wOps wName wSt "IMG").files = [] := by
  have h1 := (temp_file_released_only_on_success wOps wName wSt "??").1
      "Invalid base64-encoded string" rfl
  have h2 := (temp_file_released_only_on_success wOps wName wSt "IMG").2.2.2
      [7, 8] 2 3 rfl rfl (by decide) rfl (by decide)
  exact ⟨rfl, h1.trans (by decide), h2⟩

end ReportGen
